import Mathlib

/-!
Shallow embedding of the GridLab minigrid core (src/minigrid.py): the Grid
container with get/set/slice/rotate/encode/decode, the shadow-casting
visibility pass, and the MiniGridEnv step state machine.  Machine integers
are modelled as Nat/Int (Python ints are unbounded), the reward as an exact
rational, and fallible operations (Python assert / raised exceptions) as
Except values.  The source file indexes its flat cell list as
grid[j * width + i]; every index expression below is transcribed from the
source verbatim, including the places where the source writes a constant
where an index variable was clearly intended.
-/

namespace GridLab

/-- Types of world objects (OBJECT_TO_IDX keys in src/minigrid.py, lines
38-50, minus the two pseudo-types empty and unseen which are represented by
the absence of an object). -/
inductive ObjType where
  | wall | floor | door | key | ball | box | goal | lava | agent
deriving DecidableEq, Repr

/-- OBJECT_TO_IDX from src/minigrid.py lines 38-50 (unseen = 0, empty = 1
carry no object and are handled where cells are encoded). -/
def ObjType.toIdx : ObjType → Nat
  | .wall  => 2
  | .floor => 3
  | .door  => 4
  | .key   => 5
  | .ball  => 6
  | .box   => 7
  | .goal  => 8
  | .lava  => 9
  | .agent => 10

/-- Inverse of ObjType.toIdx on the indices 2..10. -/
def ObjType.ofIdx : Nat → Option ObjType
  | 2  => some .wall
  | 3  => some .floor
  | 4  => some .door
  | 5  => some .key
  | 6  => some .ball
  | 7  => some .box
  | 8  => some .goal
  | 9  => some .lava
  | 10 => some .agent
  | _  => none

/-- Modelled from the spec: the WorldObject type of the external object
library (spec section 3) — the source consumes it through the interface
type/color/state, can_overlap, can_pickup, see_behind, encode, decode.
color is an index into the fixed 6-color palette; state is the
object-specific small integer (door: 0 open, 1 closed, 2 locked). -/
structure WorldObj where
  type : ObjType
  color : Nat
  state : Nat
deriving DecidableEq, Repr

/-- Modelled from the spec: encode() -> (type_idx, color_idx, state_idx)
(spec section 3). -/
def WorldObj.encode (o : WorldObj) : Nat × Nat × Nat :=
  (o.type.toIdx, o.color, o.state)

/-- Modelled from the spec: class-level decode(type_idx, color_idx,
state_idx) -> WorldObject | None (spec section 3); type indices 0 (unseen)
and 1 (empty) decode to no object. -/
def WorldObj.decode (t c s : Nat) : Option WorldObj :=
  match ObjType.ofIdx t with
  | some ty => some ⟨ty, c, s⟩
  | none => none

/-- Modelled from the spec: see_behind() capability — walls are opaque,
doors are see-through exactly when open, every other object is
see-through (spec sections 3, 4.2, 9). -/
def WorldObj.see_behind (o : WorldObj) : Bool :=
  match o.type with
  | .wall => false
  | .door => o.state == 0
  | _ => true

/-- Modelled from the spec: can_overlap() capability — floor, goal, lava
and open doors may share a cell with the agent (spec glossary and the
forward/lava transition of section 4.5). -/
def WorldObj.can_overlap (o : WorldObj) : Bool :=
  match o.type with
  | .floor => true
  | .goal => true
  | .lava => true
  | .door => o.state == 0
  | _ => false

/-- Modelled from the spec: can_pickup() capability — keys, balls and
boxes can be carried (spec section 4.5). -/
def WorldObj.can_pickup (o : WorldObj) : Bool :=
  match o.type with
  | .key => true
  | .ball => true
  | .box => true
  | _ => false

/-- Modelled from the spec: the toggle(world, pos) capability, e.g. opening
a door (spec section 4.5); a non-locked door flips between open and closed,
anything else is unaffected. -/
def WorldObj.toggle (o : WorldObj) : WorldObj :=
  match o.type with
  | .door =>
      if o.state = 0 then { o with state := 1 }
      else if o.state = 1 then { o with state := 0 }
      else o
  | _ => o

/-- Modelled from the spec: the Wall() constructor of the external object
library; walls are grey (palette index 5). -/
def mkWall : WorldObj := ⟨.wall, 5, 0⟩

/-- Errors surfaced by the core: the kinds of spec section 7, plus
attributeError for the AttributeError Python raises at source line 867,
where the action dispatch evaluates self.action.pickpup although the
attribute is self.actions and the member is pickup. -/
inductive MGErr where
  | outOfBounds | invalidDimension | placementExhausted | invalidDirection | invalidAction
  | attributeError
deriving DecidableEq, Repr

/-- The Grid of src/minigrid.py lines 74-89: width, height and the flat
cell list of length width * height, all cells initially empty.  The
constructor asserts width ≥ 3 and height ≥ 3; theorems carry that
hypothesis where it matters. -/
structure Grid where
  width : Nat
  height : Nat
  grid : List (Option WorldObj)
deriving DecidableEq, Repr

/-- Grid.__init__ (lines 82-89) minus the dimension asserts: all cells
empty. -/
def Grid.new (width height : Nat) : Grid :=
  ⟨width, height, List.replicate (width * height) none⟩

/-- The in-bounds read self.grid[j * self.width + i] used by Grid.get
(line 126) once its bounds asserts have passed; loops in the source that
index only in bounds are modelled with this directly. -/
def Grid.cellAt (g : Grid) (i j : Nat) : Option WorldObj :=
  g.grid.getD (j * g.width + i) none

/-- Grid.set (lines 118-121).  The source writes
self.grid[j * self.width + 1] — the column index is the constant 1, not i,
so every in-bounds set lands in column 1 of row j.  Transcribed verbatim;
the bounds asserts hold at every call site modelled here. -/
def Grid.set (g : Grid) (i j : Nat) (v : Option WorldObj) : Grid :=
  { g with grid := g.grid.set (j * g.width + 1) v }

/-- Grid.get (lines 123-126): asserts 0 ≤ i < width and 0 ≤ j < height,
then reads self.grid[j * self.width + i]. -/
def Grid.get (g : Grid) (i j : Int) : Except MGErr (Option WorldObj) :=
  if 0 ≤ i ∧ i < (g.width : Int) ∧ 0 ≤ j ∧ j < (g.height : Int) then
    .ok (g.cellAt i.toNat j.toNat)
  else
    .error .outOfBounds

/-- Grid.rotate_left (lines 128-140): allocates a height × width grid and
writes grid.set(j, grid.height - 1 - 1, v) for every source cell v =
get(i, j).  The source's destination row is the constant
grid.height - 1 - 1, not grid.height - 1 - i; transcribed verbatim. -/
def Grid.rotate_left (g : Grid) : Grid :=
  (List.range g.width).foldl
    (fun acc i =>
      (List.range g.height).foldl
        (fun acc j =>
          let v := g.cellAt i j
          acc.set j (acc.height - 1 - 1) v)
        acc)
    (Grid.new g.height g.width)

/-- Grid.slice (lines 142-162): allocates a width × height grid; for each
target cell (i, j) it reads source coordinate (x, y) with x = topX + 1
(the source adds the constant 1, not i; transcribed verbatim) and
y = topY + j, taking the source cell when (x, y) is in bounds and a Wall
otherwise, and stores it with Grid.set. -/
def Grid.slice (g : Grid) (topX topY : Int) (width height : Nat) : Grid :=
  (List.range height).foldl
    (fun acc (j : Nat) =>
      (List.range width).foldl
        (fun acc (i : Nat) =>
          let x : Int := topX + 1
          let y : Int := topY + j
          let v : Option WorldObj :=
            if 0 ≤ x ∧ x < (g.width : Int) ∧ 0 ≤ y ∧ y < (g.height : Int) then
              g.cellAt x.toNat y.toNat
            else
              some mkWall
          acc.set i j v)
        acc)
    (Grid.new width height)

/-- A visibility mask, indexed mask[i][j] like the numpy array of shape
(width, height) in the source. -/
abbrev Mask := List (List Bool)

/-- mask[i, j] read. -/
def mget (m : Mask) (i j : Nat) : Bool :=
  (List.getD m i []).getD j false

/-- mask[i, j] = b write. -/
def mset (m : Mask) (i j : Nat) (b : Bool) : Mask :=
  List.set m i ((List.getD m i []).set j b)

/-- The all-b mask of shape (width, height). -/
def mconst (width height : Nat) (b : Bool) : Mask :=
  List.replicate width (List.replicate height b)

/-- Grid.encode (lines 260-283): a width × height array of
(type, color, state) triples, indexed array[i][j]; a masked-out cell keeps
the zero triple (0,0,0) = unseen, an empty visible cell becomes (1,0,0),
and a visible object contributes its own encode() triple. -/
def Grid.encode (g : Grid) (vis_mask : Mask) : List (List (Nat × Nat × Nat)) :=
  (List.range g.width).map (fun i =>
    (List.range g.height).map (fun j =>
      if mget vis_mask i j then
        match g.cellAt i j with
        | none => (1, 0, 0)
        | some v => v.encode
      else (0, 0, 0)))

/-- Grid.encode with the default mask (vis_mask = None in the source, line
265-266): every cell visible. -/
def Grid.encodeFull (g : Grid) : List (List (Nat × Nat × Nat)) :=
  g.encode (mconst g.width g.height true)

/-- Grid.decode (lines 285-304): width and height are the array's first
two dimensions; each cell is rebuilt with WorldObj.decode and stored with
Grid.set (so the fixed-column bug of Grid.set applies), and the returned
mask holds type_idx ≠ unseen (= 0) per cell. -/
def Grid.decode (a : List (List (Nat × Nat × Nat))) : Grid × Mask :=
  let width := a.length
  let height := (List.getD a 0 []).length
  let g :=
    (List.range width).foldl
      (fun acc i =>
        (List.range height).foldl
          (fun acc j =>
            let t := (List.getD a i []).getD j (0, 0, 0)
            acc.set i j (WorldObj.decode t.1 t.2.1 t.2.2))
          acc)
      (Grid.new width height)
  let vis_mask : Mask :=
    (List.range width).map (fun i =>
      (List.range height).map (fun j =>
        ((List.getD a i []).getD j (0, 0, 0)).1 != 0))
  (g, vis_mask)

/-- One left-to-right sweep body of Grid.process_vis (lines 312-323) at
row j, column i: skip unless mask[i, j] is set and the occupant (if any)
is see-through, then mark (i+1, j) and, when j > 0, also (i+1, j-1) and
(i, j-1). -/
def visStepLTR (g : Grid) (j : Nat) (m : Mask) (i : Nat) : Mask :=
  if !mget m i j then m
  else
    let blocked := match g.cellAt i j with
      | some c => !c.see_behind
      | none => false
    if blocked then m
    else
      let m := mset m (i + 1) j true
      if 0 < j then mset (mset m (i + 1) (j - 1) true) i (j - 1) true
      else m

/-- One right-to-left sweep body of Grid.process_vis (lines 325-336) at
row j, column i: the mirrored propagation to (i-1, j) and, when j > 0,
(i-1, j-1) and (i, j-1). -/
def visStepRTL (g : Grid) (j : Nat) (m : Mask) (i : Nat) : Mask :=
  if !mget m i j then m
  else
    let blocked := match g.cellAt i j with
      | some c => !c.see_behind
      | none => false
    if blocked then m
    else
      let m := mset m (i - 1) j true
      if 0 < j then mset (mset m (i - 1) (j - 1) true) i (j - 1) true
      else m

/-- Grid.process_vis (lines 306-343): start from a mask that is True only
at agent_pos; for j from height-1 down to 0 run the left-to-right sweep
over i = 0..width-2 and then the right-to-left sweep over i = width-1..1;
finally clear every cell whose mask bit is False with Grid.set (so the
fixed-column bug of Grid.set applies to the clearing pass) and return the
mutated grid together with the mask. -/
def Grid.process_vis (g : Grid) (agent_pos : Nat × Nat) : Grid × Mask :=
  let m0 := mset (mconst g.width g.height false) agent_pos.1 agent_pos.2 true
  let m :=
    ((List.range g.height).reverse).foldl
      (fun m j =>
        let m := (List.range (g.width - 1)).foldl (visStepLTR g j) m
        ((List.range (g.width - 1)).map (· + 1)).reverse.foldl (visStepRTL g j) m)
      m0
  let g2 :=
    (List.range g.height).foldl
      (fun acc (j : Nat) =>
        (List.range g.width).foldl
          (fun acc (i : Nat) =>
            if mget m i j then acc else acc.set i j none)
          acc)
      g
  (g2, m)

/-- DIR_TO_VEC (lines 62-71): direction index to unit vector,
{0,1,2,3} = {East, South, West, North}. -/
def DIR_TO_VEC : List (Int × Int) := [(1, 0), (0, 1), (-1, 0), (0, -1)]

/-- MiniGridEnv.dir_vec (lines 710-718): asserts 0 ≤ agent_dir < 4 and
looks the vector up in DIR_TO_VEC. -/
def dir_vec (d : Int) : Except MGErr (Int × Int) :=
  if 0 ≤ d ∧ d < 4 then .ok (DIR_TO_VEC.getD d.toNat (0, 0))
  else .error .invalidDirection

/-- The mutable environment state owned by MiniGridEnv: the grid, agent
position and direction, the carried object, the step counter and the
episode bound (spec section 3, source lines 421-459). -/
structure EnvState where
  grid : Grid
  agent_pos : Int × Int
  agent_dir : Int
  carrying : Option WorldObj
  step_count : Nat
  max_steps : Nat
deriving DecidableEq, Repr

namespace MiniGridEnv

/-- MiniGridEnv._reward (lines 550-555): 1 - 0.9 * (step_count /
max_steps), modelled in exact rational arithmetic. -/
def reward_of (s : EnvState) : ℚ :=
  1 - (9 / 10) * ((s.step_count : ℚ) / (s.max_steps : ℚ))

/-- The action-dispatch chain of MiniGridEnv.step (lines 846-900), split
out as its own definition over the already-incremented state s, the
forward position and the forward cell.  The elif ladder tests the action
against left (0, line 847), right (1, line 853) and forward (2, line 857)
in turn; the next test, line 867, reads self.action.pickpup — the
attribute is self.actions and the member is pickup — so for every action
value other than 0, 1 and 2 Python raises AttributeError there, and the
pickup/drop/toggle/done/up/down branches (lines 868-899) as well as the
assert False, "unknown action" of line 900 are unreachable.  The chain is
transcribed accordingly: the three reachable actions produce the updated
state, reward and done flag, and everything else is the line-867
AttributeError. -/
def dispatch (s : EnvState) (fwd_pos : Int × Int) (fwd_cell : Option WorldObj)
    (action : Nat) : Except MGErr (EnvState × ℚ × Bool) :=
  if action = 0 then
    let d := s.agent_dir - 1
    let d := if d < 0 then d + 4 else d
    .ok ({ s with agent_dir := d }, 0, false)
  else if action = 1 then
    .ok ({ s with agent_dir := (s.agent_dir + 1) % 4 }, 0, false)
  else if action = 2 then
    let moved :=
      match fwd_cell with
      | none => true
      | some c => c.can_overlap
    let s2 := if moved then { s with agent_pos := fwd_pos } else s
    let hitGoal :=
      match fwd_cell with
      | some c => c.type = ObjType.goal
      | none => false
    let hitLava :=
      match fwd_cell with
      | some c => c.type = ObjType.lava
      | none => false
    let reward : ℚ := if hitGoal then reward_of s2 else 0
    .ok (s2, reward, hitGoal || hitLava)
  else
    .error .attributeError

/-- MiniGridEnv.step (lines 831-907) as a state transition.  The source
first increments step_count, then computes front_pos = agent_pos + dir_vec
(dir_vec asserts the direction index) and reads the forward cell with
Grid.get (whose bounds assert fires before any action is dispatched), then
runs the dispatch chain, and — when the dispatch returned at all — finally
forces done once step_count ≥ max_steps (line 902).  A failed assert or a
raised AttributeError is an error whose returned state carries the
mutations already performed (the step_count increment, which is threaded
into every outcome below; it does not influence front_pos or the forward
cell), and it skips the line-902 timeout check.  The observation the
source builds afterwards with gen_obs operates on a sliced copy of the
grid and changes neither the state nor reward nor done, so it is not part
of the transition. -/
def step (s0 : EnvState) (action : Nat) : EnvState × Except MGErr (ℚ × Bool) :=
  match dir_vec s0.agent_dir with
  | .error e => ({ s0 with step_count := s0.step_count + 1 }, .error e)
  | .ok dv =>
    match s0.grid.get (s0.agent_pos.1 + dv.1) (s0.agent_pos.2 + dv.2) with
    | .error e => ({ s0 with step_count := s0.step_count + 1 }, .error e)
    | .ok fwd_cell =>
      match dispatch { s0 with step_count := s0.step_count + 1 }
              (s0.agent_pos.1 + dv.1, s0.agent_pos.2 + dv.2) fwd_cell action with
      | .error e => ({ s0 with step_count := s0.step_count + 1 }, .error e)
      | .ok (s2, reward, done) =>
        (s2, .ok (reward, done || decide (s2.step_count ≥ s2.max_steps)))

end MiniGridEnv

/-! Concrete instances used to settle the claims. -/

/-- A 3×3 grid with a grey Wall at (0, 0) and everything else empty. -/
def G1 : Grid := ⟨3, 3, (List.replicate 9 (none : Option WorldObj)).set 0 (some mkWall)⟩

/-- The empty 3×3 grid. -/
def G0e : Grid := Grid.new 3 3

/-- A 3×3 sliced-and-rotated view with Walls at (0,0), (0,1), (1,1) and
(2,1): the wall row j = 1 occludes row j = 0 from the origin (1, 2). -/
def GV : Grid :=
  ⟨3, 3, ((((List.replicate 9 (none : Option WorldObj)).set 0 (some mkWall)).set 3
      (some mkWall)).set 4 (some mkWall)).set 5 (some mkWall)⟩

/-- 5×5 empty grid, agent at (2, 2) facing East. -/
def s5 : EnvState := ⟨Grid.new 5 5, (2, 2), 0, none, 0, 100⟩

/-- Like s5 but with a Wall in the forward cell (3, 2) (flat index
2 * 5 + 3 = 13). -/
def s5w : EnvState :=
  ⟨⟨5, 5, (List.replicate 25 (none : Option WorldObj)).set 13 (some mkWall)⟩,
   (2, 2), 0, none, 0, 100⟩

/-- Agent at the West boundary cell (0, 1) of a 3×3 grid, facing West, so
the forward cell (-1, 1) is outside the grid. -/
def s10 : EnvState := ⟨Grid.new 3 3, (0, 1), 2, none, 0, 100⟩

/-- An in-bounds state one step away from its episode bound
(max_steps = 1, step_count = 0). -/
def s7 : EnvState := ⟨Grid.new 3 3, (1, 1), 0, none, 0, 1⟩

/-! The claims. -/

/-- C1: the encode/decode round trip is violated.  For G1 (3×3, Wall at
(0, 0)) and the all-True mask the decoded visibility mask does equal the
input mask, but the decoded grid is not equal by mask-less encoding to G1
with occluded cells cleared (which is G1 itself, the mask being all True):
Grid.decode rebuilds cells through the fixed-column Grid.set, so the Wall
at (0, 0) is lost. -/
theorem decode_encode_roundtrip_violated :
    (Grid.decode (G1.encode (mconst 3 3 true))).2 = mconst 3 3 true ∧
    (Grid.decode (G1.encode (mconst 3 3 true))).1.encodeFull ≠ G1.encodeFull := by
  decide

/-- C2: process_vis on GV from origin (1, 2) correctly computes
mask[0, 0] = False (the wall row occludes it), yet the returned grid still
holds the Wall at (0, 0): the clearing pass goes through the fixed-column
Grid.set, so occluded cells outside column 1 are not erased. -/
theorem process_vis_occluded_cell_not_erased :
    mget (GV.process_vis (1, 2)).2 0 0 = false ∧
    (GV.process_vis (1, 2)).1.cellAt 0 0 = some mkWall := by
  decide

/-- C3: a single rotate_left does swap the dimensions, but four
applications of rotate_left to G1 do not restore G1 by encoding: every
rotation funnels all cells into one flat index, so the rotated grid is
all-empty and the Wall of G1 is lost. -/
theorem rotate_left_four_not_identity :
    G1.rotate_left.width = G1.height ∧ G1.rotate_left.height = G1.width ∧
    (G1.rotate_left.rotate_left.rotate_left.rotate_left).encodeFull ≠ G1.encodeFull := by
  decide

/-- C6: slicing the empty 3×3 grid at (-1, -1) with target size 3×3 leaves
the out-of-range target cell (0, 0) empty instead of filling it with a
Wall; the Wall intended for the out-of-range border ends up only at
(1, 0), the fixed column of Grid.set. -/
theorem slice_out_of_range_cell_not_wall :
    (G0e.slice (-1) (-1) 3 3).cellAt 0 0 = none ∧
    (G0e.slice (-1) (-1) 3 3).cellAt 1 0 = some mkWall := by
  decide

/-- C5: step(forward) moves the agent into the forward cell exactly when
that cell is empty or its occupant can be overlapped, and otherwise leaves
the position unchanged. -/
theorem step_forward_moves_iff (s : EnvState) (dv : Int × Int) (fc : Option WorldObj)
    (hdv : dir_vec s.agent_dir = .ok dv)
    (hc : s.grid.get (s.agent_pos.1 + dv.1) (s.agent_pos.2 + dv.2) = .ok fc) :
    (MiniGridEnv.step s 2).1.agent_pos =
      if (match fc with | none => true | some c => c.can_overlap) = true then
        (s.agent_pos.1 + dv.1, s.agent_pos.2 + dv.2)
      else s.agent_pos := by
  unfold MiniGridEnv.step
  simp only [hdv, hc]
  cases fc <;> simp [MiniGridEnv.dispatch] <;> split <;> simp_all

/-- C5 witness: from (2, 2) facing East, a forward step onto the empty
cell (3, 2) moves the agent there, while with a Wall at (3, 2) the agent
stays at (2, 2). -/
theorem step_forward_moves_iff_witness :
    (MiniGridEnv.step s5 2).1.agent_pos = (3, 2) ∧
    (MiniGridEnv.step s5w 2).1.agent_pos = (2, 2) := by
  have h1 := step_forward_moves_iff s5 (1, 0) none rfl rfl
  have h2 := step_forward_moves_iff s5w (1, 0) (some mkWall) rfl rfl
  constructor
  · rw [h1]; norm_num [s5]
  · rw [h2]; simp [mkWall, WorldObj.can_overlap, s5w]

/-- C7: refuted at a concrete input.  In s7 (step_count = 0,
max_steps = 1) the defined enum action pickup (3) makes step fail with the
AttributeError of line 867 (self.action.pickpup) instead of returning a
done flag: step_count is incremented to 1 = max_steps, so a normal return
would have had to report done = True, but the timeout check of line 902 is
never reached.  The same happens for drop, toggle, done, up and down. -/
theorem step_enum_action_crashes_before_timeout :
    (MiniGridEnv.step s7 3).2 = .error MGErr.attributeError ∧
    (MiniGridEnv.step s7 3).1.step_count = 1 ∧ s7.max_steps = 1 := by
  constructor
  · rfl
  · constructor <;> rfl

/-- C10: when the agent faces outward at the boundary (the forward cell is
outside the grid), step fails with the Grid bounds check for every action
value — the forward cell is read before the action is dispatched. -/
theorem step_boundary_fails_all_actions (s : EnvState) (a : Nat) (dv : Int × Int)
    (hdv : dir_vec s.agent_dir = .ok dv)
    (hoob : s.grid.get (s.agent_pos.1 + dv.1) (s.agent_pos.2 + dv.2) =
      .error MGErr.outOfBounds) :
    (MiniGridEnv.step s a).2 = .error MGErr.outOfBounds := by
  unfold MiniGridEnv.step
  simp [hdv, hoob]

/-- C10 witness: at the West boundary cell (0, 1) facing West, both
turn_left (0) and turn_right (1) fail with the bounds check. -/
theorem step_boundary_fails_all_actions_witness :
    (MiniGridEnv.step s10 0).2 = .error MGErr.outOfBounds ∧
    (MiniGridEnv.step s10 1).2 = .error MGErr.outOfBounds :=
  ⟨step_boundary_fails_all_actions s10 0 (-1, 0) rfl rfl,
   step_boundary_fails_all_actions s10 1 (-1, 0) rfl rfl⟩

end GridLab
